import Mathlib

/-!
# Verification of the `cadence` playback core

Shallow embedding of `src/core/cadence-core/src/lib.rs` (the `Player` type:
`load_and_play`, `load_and_play_symphonia`, `seek_approx`) together with the
`Play` command handling of the desktop shell
(`src/apps/cadence-desktop/src/main.rs`, `player_loop`).

Modelling conventions:
* I/O results that the code merely branches on (did `File::open` succeed, did
  `Decoder::new` succeed, what does `total_duration()` report, the sequence of
  `format.next_packet()` / `decoder.decode()` outcomes) are inputs to the
  embedded functions, so each embedded function is a pure function of the
  source it is fed.
* Machine integers are `Nat` with an explicit `% 2 ^ w` exactly where the Rust
  code performs a lossy cast or an operation that can wrap
  (`as_millis() as u64`, `pcm.len() as u64 * 1000`, `sr as u64 * ch as u64`,
  `ch as u16`).
* `std::time::Duration` values are modelled as a `Nat` count of nanoseconds
  (the exact representation used by `Duration` comparisons).
* Calls issued to the `rodio` sink are recorded, in order, in a `List SinkOp`;
  each embedded operation returns the pair of its `Result` and the sink ops it
  performed.  An operation that returns early with an error has performed no
  sink op, matching the source, where every `sink.lock()` section comes after
  the last fallible step.
-/

/-- `TrackInfo` (lib.rs): `path` and optional `duration_ms`. -/
structure TrackInfo where
  path : String
  duration_ms : Option Nat
deriving Repr, DecidableEq

/-- The distinct error exits of the embedded operations (each `return Err` /
`?` site of lib.rs gets one constructor). -/
inductive PlayerErr where
  /-- `File::open` failed. -/
  | openFailed
  /-- `rodio::Decoder::new` failed ("Unsupported/invalid audio"). -/
  | unsupportedAudio
  /-- `get_probe().format(...)` failed ("probe format"). -/
  | probeFailed
  /-- `format.default_track()` returned `None` ("no audio track"). -/
  | noAudioTrack
  /-- `get_codecs().make(...)` failed. -/
  | codecFailed
  /-- `format.next_packet()` returned an error other than `ResetRequired` and
  `IoError(UnexpectedEof)`. -/
  | formatFatal
  /-- `decoder.decode(&pkt)` returned an error other than `DecodeError(_)`. -/
  | decodeFatal
deriving Repr, DecidableEq

/-- The string an error turns into under `anyhow::Error::to_string` /
`map_err(|e| e.to_string())` in the desktop shell (message content is
abstracted; only which error is surfaced matters). -/
def PlayerErr.message : PlayerErr → String
  | .openFailed => "Failed to open"
  | .unsupportedAudio => "Unsupported/invalid audio"
  | .probeFailed => "probe format"
  | .noAudioTrack => "no audio track"
  | .codecFailed => "unsupported codec"
  | .formatFatal => "format error"
  | .decodeFatal => "decode error"

/-- One call on the locked `rodio` sink. -/
inductive SinkOp where
  /-- `sink.stop()` (also `self.stop()`). -/
  | stop
  /-- `sink.append(src2)` — the fast path appends the rodio decoder itself. -/
  | appendDecoder
  /-- `sink.append(SamplesBuffer::new(ch as u16, sr, pcm))` — the fallback
  path appends the accumulated interleaved buffer. -/
  | appendSamples (channels : Nat) (rate : Nat) (pcm : List Int)
  /-- `sink.append(src.skip_duration(Duration::from_millis(to_ms)))` — the
  seek path appends the stream with the first `to_ms` of audio skipped. -/
  | appendSkipped (to_ms : Nat)
  /-- `sink.play()`. -/
  | play
deriving Repr, DecidableEq

/-- Is this sink op one of the three `append` forms? -/
def SinkOp.isAppend : SinkOp → Bool
  | .appendDecoder => true
  | .appendSamples _ _ _ => true
  | .appendSkipped _ => true
  | _ => false

/-- What the fast (rodio) path observes when opening a given file: whether
`File::open` succeeds, whether `Decoder::new` succeeds, and what
`total_duration()` reports (in nanoseconds).  The file is deterministic, so
re-opening it (lib.rs opens each file twice) observes the same values. -/
structure RodioSource where
  openOk : Bool
  decodeOk : Bool
  totalDurationNanos : Option Nat
deriving Repr, DecidableEq

/-- `Player::load_and_play` (lib.rs lines 35-59): open + decode once for the
duration, re-open, then `stop`/`append`/`play` on the sink.
`duration_ms = total_duration().map(|d| d.as_millis() as u64)`:
`as_millis` divides the nanosecond count by 10^6 (as a `u128`) and the
`as u64` cast truncates mod `2 ^ 64`. -/
def load_and_play (path : String) (src : RodioSource) :
    Except PlayerErr TrackInfo × List SinkOp :=
  if src.openOk = false then (.error .openFailed, [])
  else if src.decodeOk = false then (.error .unsupportedAudio, [])
  else
    let dur := src.totalDurationNanos.map (fun n => n / 1000000 % 2 ^ 64)
    (.ok ⟨path, dur⟩, [.stop, .appendDecoder, .play])

/-- `Player::seek_approx` (lib.rs lines 143-173): open + decode to query
`total_duration()`; if `Duration::from_millis(to_ms) >= total` (when known),
`self.stop()` and return `Ok(())`; otherwise re-open, build
`src.skip_duration(to)` and `stop`/`append`/`play`. -/
def seek_approx (src : RodioSource) (to_ms : Nat) :
    Except PlayerErr Unit × List SinkOp :=
  if src.openOk = false then (.error .openFailed, [])
  else if src.decodeOk = false then (.error .unsupportedAudio, [])
  else
    let toNanos := to_ms * 1000000
    let pastEnd : Bool :=
      match src.totalDurationNanos with
      | some total => decide (total ≤ toNanos)
      | none => false
    if pastEnd then (.ok (), [.stop])
    else (.ok (), [.stop, .appendSkipped to_ms, .play])

/-- The fields of `symphonia` `CodecParams` that lib.rs reads:
`sample_rate : Option<u32>` and `channels.map(|c| c.count())`. -/
structure CodecParams where
  sample_rate : Option Nat
  channelCount : Option Nat
deriving Repr, DecidableEq

/-- A demuxer track: its `id` and its `codec_params`. -/
structure Track where
  id : Nat
  codec_params : CodecParams
deriving Repr, DecidableEq

/-- Outcome of `decoder.decode(&pkt)` for one packet: a decoded buffer
(its signal spec `rate` and channel count, and its interleaved samples as
copied out by `SampleBuffer::copy_interleaved_ref`), a recoverable
`DecodeError(_)`, or any other (fatal) error. -/
inductive DecodeOutcome where
  | ok (rate : Nat) (channelCount : Nat) (samples : List Int)
  | decodeError
  | fatal
deriving Repr, DecidableEq

/-- Outcome of one `format.next_packet()` call. -/
inductive PacketEvent where
  /-- `Ok(pkt)` with `pkt.track_id()` and what decoding it would yield. -/
  | packet (track_id : Nat) (outcome : DecodeOutcome)
  /-- `Err(ResetRequired)`. -/
  | resetRequired
  /-- `Err(IoError(e))` with `e.kind() == UnexpectedEof`. -/
  | eof
  /-- Any other `Err(_)` (other I/O kinds, `DecodeError`, ...). -/
  | otherError
deriving Repr, DecidableEq

/-- The mutable state of the packet loop of `load_and_play_symphonia`:
the accumulated interleaved `pcm`, the last-observed sample rate `sr` and
channel count `ch`, and (ghost, for specification only) the number of
`decoder.reset()` calls performed so far. -/
structure LoopState where
  pcm : List Int
  sr : Nat
  ch : Nat
  resets : Nat
deriving Repr, DecidableEq

/-- The loop state just before the packet loop:
`sr = codec_params.sample_rate.unwrap_or(48_000)`,
`ch = codec_params.channels.map(|c| c.count()).unwrap_or(2)`. -/
def initState (cp : CodecParams) : LoopState :=
  ⟨[], cp.sample_rate.getD 48000, cp.channelCount.getD 2, 0⟩

/-- The packet loop of `load_and_play_symphonia` (lib.rs lines 91-117), one
step per `next_packet()` outcome: `ResetRequired` resets the decoder and
continues; `UnexpectedEof` breaks the loop normally; any other packet error
aborts; a packet of another track is skipped (`continue`) without decoding;
a decoded buffer updates `sr`/`ch` from its spec and extends `pcm` with its
interleaved samples; a recoverable `DecodeError` skips the packet; any other
decode error aborts.  (The real loop only ends via `eof` or an error; an
exhausted event list returns the current state like `eof`.) -/
def packetLoop (track_id : Nat) : List PacketEvent → LoopState → Except PlayerErr LoopState
  | [], st => .ok st
  | .resetRequired :: rest, st =>
      packetLoop track_id rest ⟨st.pcm, st.sr, st.ch, st.resets + 1⟩
  | .eof :: _, st => .ok st
  | .otherError :: _, _ => .error .formatFatal
  | .packet tid outcome :: rest, st =>
      if tid ≠ track_id then packetLoop track_id rest st
      else
        match outcome with
        | .ok rate channelCount samples =>
            packetLoop track_id rest ⟨st.pcm ++ samples, rate, channelCount, st.resets⟩
        | .decodeError => packetLoop track_id rest st
        | .fatal => .error .decodeFatal

/-- What the fallback (symphonia) path observes for a given file: whether
`File::open` succeeds, whether probing succeeds, the container's default
track (if any), whether a decoder can be made for its codec parameters, and
the stream of `next_packet()` outcomes. -/
structure MediaSource where
  openOk : Bool
  probeOk : Bool
  defaultTrack : Option Track
  makeDecoderOk : Bool
  packets : List PacketEvent
deriving Repr, DecidableEq

/-- `Player::load_and_play_symphonia` (lib.rs lines 61-135): open, probe,
pick the default track, make a decoder, run the packet loop, derive
`duration_ms = (pcm.len() as u64 * 1000) / (sr as u64 * ch as u64)` when
`ch > 0 && sr > 0` (else `None`; both `u64` products can wrap mod `2 ^ 64`),
then `stop`/`append(SamplesBuffer::new(ch as u16, sr, pcm))`/`play`. -/
def load_and_play_symphonia (path : String) (src : MediaSource) :
    Except PlayerErr TrackInfo × List SinkOp :=
  if src.openOk = false then (.error .openFailed, [])
  else if src.probeOk = false then (.error .probeFailed, [])
  else
    match src.defaultTrack with
    | none => (.error .noAudioTrack, [])
    | some track =>
      if src.makeDecoderOk = false then (.error .codecFailed, [])
      else
        match packetLoop track.id src.packets (initState track.codec_params) with
        | .error e => (.error e, [])
        | .ok st =>
          let duration_ms :=
            if 0 < st.ch ∧ 0 < st.sr then
              some (st.pcm.length * 1000 % 2 ^ 64 / (st.sr * st.ch % 2 ^ 64))
            else none
          (.ok ⟨path, duration_ms⟩,
           [.stop, .appendSamples (st.ch % 65536) st.sr st.pcm, .play])

/-- `map_err(|e| e.to_string())` as applied by the desktop shell. -/
def mapErrString (r : Except PlayerErr TrackInfo) : Except String TrackInfo :=
  match r with
  | .ok info => .ok info
  | .error e => .error e.message

/-- The `Command::Play` arm of `player_loop`
(src/apps/cadence-desktop/src/main.rs lines 66-75): try `load_and_play`; on
`Err`, log and fall back to `load_and_play_symphonia`, stringifying only the
fallback's error. -/
def player_loop_play (path : String) (fast : RodioSource) (fallback : MediaSource) :
    Except String TrackInfo × List SinkOp :=
  match load_and_play path fast with
  | (.ok info, ops) => (.ok info, ops)
  | (.error _, ops1) =>
    let r := load_and_play_symphonia path fallback
    (mapErrString r.1, ops1 ++ r.2)

/-- Modelled from the spec: the CLI (src/tools/cadence-cli/src/main.rs) calls
`Player::new`, `Player::load_and_play` and `Player::advance_or_rewind` of a
cadence-core revision that is not under src/ (the lib.rs under src/ has
neither `Player::new` nor `advance_or_rewind`, and its `TrackInfo.path` is a
`String`, on which the CLI's `info.path.display()` would not compile).  Spec
§4.1: the decoder selector "attempt[s] the fast path... If this path fails
... control passes to step 2 [the fallback]"; "fast-path failure is never
surfaced as a final error — it triggers the fallback automatically; fallback
failure IS the final, user-visible error". -/
def cli_load_and_play (path : String) (fast : RodioSource) (fallback : MediaSource) :
    Except PlayerErr TrackInfo × List SinkOp :=
  match load_and_play path fast with
  | (.ok info, ops) => (.ok info, ops)
  | (.error _, ops1) =>
    let r := load_and_play_symphonia path fallback
    (r.1, ops1 ++ r.2)

/-- Modelled from the spec: the Track Position Tracker (`PlaybackClock`,
spec §3 and §4.3) lives in the cadence-core revision that is not under src/
(src/core/cadence-core/src/lib.rs has no position tracking at all).
Fields per spec §3: `position_ms` (last committed elapsed position) and
`running_since` (present iff playback is advancing).  Timestamps are `Nat`
milliseconds of wall-clock time, passed explicitly as `now`. -/
structure PlaybackClock where
  position_ms : Nat
  running_since : Option Nat
deriving Repr, DecidableEq

/-- Modelled from the spec (§4.3): `Playing → Paused` on `Pause`:
`position_ms := position_ms + (now - running_since)`, `running_since :=
absent`; `Pause` when not playing is a no-op (§4.2, §6). -/
def PlaybackClock.pause (c : PlaybackClock) (now : Nat) : PlaybackClock :=
  match c.running_since with
  | some s => ⟨c.position_ms + (now - s), none⟩
  | none => c

/-- Modelled from the spec (§4.3): `Paused → Playing` on `Resume`:
`running_since := now` (position_ms unchanged); `Resume` when already
playing is a no-op (§6). -/
def PlaybackClock.resume (c : PlaybackClock) (now : Nat) : PlaybackClock :=
  match c.running_since with
  | some _ => c
  | none => ⟨c.position_ms, some now⟩

/-- Modelled from the spec (§3, §4.3): current position is
`position_ms + elapsed(running_since, now)` while running, else
`position_ms`. -/
def PlaybackClock.current_position (c : PlaybackClock) (now : Nat) : Nat :=
  match c.running_since with
  | some s => c.position_ms + (now - s)
  | none => c.position_ms

/-! ## Theorems -/

/-- C1: In the fallback decode path's packet loop: a recoverable per-packet
decode error (`DecodeError`) skips the packet and decoding continues
unchanged; a stream-reset signal (`ResetRequired`) resets the decoder state
and decoding continues; end-of-stream (`UnexpectedEof`) terminates the loop
normally, keeping the PCM accumulated so far; any other packet or decode
error fails the whole decode operation with an error. -/
theorem fallback_loop_error_policy (track_id : Nat) (rest : List PacketEvent)
    (st : LoopState) :
    packetLoop track_id (.packet track_id .decodeError :: rest) st
        = packetLoop track_id rest st
    ∧ packetLoop track_id (.resetRequired :: rest) st
        = packetLoop track_id rest ⟨st.pcm, st.sr, st.ch, st.resets + 1⟩
    ∧ packetLoop track_id (.eof :: rest) st = .ok st
    ∧ packetLoop track_id (.otherError :: rest) st = .error .formatFatal
    ∧ packetLoop track_id (.packet track_id .fatal :: rest) st
        = .error .decodeFatal := by
  refine ⟨?_, rfl, rfl, rfl, ?_⟩ <;> simp [packetLoop]

/-- C2: if the fast-path decoder opens the locator, decodes it and reports a
total duration, then for every `to_ms` at or past that duration,
`seek_approx` returns success having issued only a `stop` to the sink (no
append, no play): the player is left stopped, not in an error state. -/
theorem seek_past_end_stops (src : RodioSource) (to_ms total : Nat)
    (hopen : src.openOk = true) (hdec : src.decodeOk = true)
    (htot : src.totalDurationNanos = some total)
    (hge : total ≤ to_ms * 1000000) :
    seek_approx src to_ms = (.ok (), [.stop]) := by
  simp [seek_approx, hopen, hdec, htot, hge]

/-- Witness for C2 at a concrete input: a 3-second track, seek to 3000 ms. -/
theorem seek_past_end_stops_witness :
    seek_approx ⟨true, true, some 3000000000⟩ 3000 = (.ok (), [.stop]) :=
  seek_past_end_stops ⟨true, true, some 3000000000⟩ 3000 3000000000
    rfl rfl rfl (by decide)

/-- C9: if the fast-path decoder opens and decodes the locator but reports no
total duration, `seek_approx` never takes the stop-early branch: for every
`to_ms` (including values past the track's actual end) it re-decodes from the
start, appends the stream with the first `to_ms` skipped, starts playback,
and returns success. -/
theorem seek_unknown_duration_plays (src : RodioSource) (to_ms : Nat)
    (hopen : src.openOk = true) (hdec : src.decodeOk = true)
    (htot : src.totalDurationNanos = none) :
    seek_approx src to_ms = (.ok (), [.stop, .appendSkipped to_ms, .play]) := by
  simp [seek_approx, hopen, hdec, htot]

/-- Witness for C9 at a concrete input: unknown duration, seek to 10^9 ms. -/
theorem seek_unknown_duration_plays_witness :
    seek_approx ⟨true, true, none⟩ 1000000000
      = (.ok (), [.stop, .appendSkipped 1000000000, .play]) :=
  seek_unknown_duration_plays ⟨true, true, none⟩ 1000000000 rfl rfl rfl

/-- C7: for a clock that is playing (so `running_since = some s`), a `Pause`
at `now₁` followed by a `Resume` at any later wall-clock time `now₂` (no
intervening `Seek`) gives: the current position immediately after the
`Resume` equals (exactly, so within any tolerance) the current position
immediately before the `Pause`; and the `Resume` sets `running_since := now₂`
leaving `position_ms` unchanged from its paused value. -/
theorem pause_resume_preserves_position (c : PlaybackClock) (s now₁ now₂ : Nat)
    (h : c.running_since = some s) :
    ((c.pause now₁).resume now₂).current_position now₂
        = c.current_position now₁
    ∧ (c.pause now₁).resume now₂
        = ⟨c.position_ms + (now₁ - s), some now₂⟩ := by
  simp [PlaybackClock.pause, PlaybackClock.resume,
    PlaybackClock.current_position, h]

/-- Witness for C7 at a concrete input: position 100, running since t=50,
pause at t=70, resume at t=200. -/
theorem pause_resume_preserves_position_witness :
    (((⟨100, some 50⟩ : PlaybackClock).pause 70).resume 200).current_position 200
        = (⟨100, some 50⟩ : PlaybackClock).current_position 70
    ∧ ((⟨100, some 50⟩ : PlaybackClock).pause 70).resume 200
        = ⟨100 + (70 - 50), some 200⟩ :=
  pause_resume_preserves_position ⟨100, some 50⟩ 50 70 200 rfl

/-- C3: every successful decode returns a `TrackInfo` whose `duration_ms` is
`none` exactly when the duration is undeterminable — fast path: exactly when
the rodio decoder reports no `total_duration()`; fallback path: exactly when
the loop's final sample rate or channel count is zero — and never a sentinel
`some 0` standing in for unknown (unknown always yields `none`, and success
is still returned). -/
theorem duration_none_iff_undeterminable (path : String) (rsrc : RodioSource)
    (msrc : MediaSource) (t : Track) (st : LoopState) (info₁ info₂ : TrackInfo)
    (h₁ : (load_and_play path rsrc).1 = .ok info₁)
    (ht : msrc.defaultTrack = some t)
    (hst : packetLoop t.id msrc.packets (initState t.codec_params) = .ok st)
    (h₂ : (load_and_play_symphonia path msrc).1 = .ok info₂) :
    (info₁.duration_ms = none ↔ rsrc.totalDurationNanos = none)
    ∧ (info₂.duration_ms = none ↔ ¬(0 < st.ch ∧ 0 < st.sr)) := by
  obtain ⟨ro, rd, rt⟩ := rsrc
  obtain ⟨mo, mp, mdt, mk, mpkts⟩ := msrc
  subst ht
  constructor
  · cases ro with
    | false => simp [load_and_play] at h₁
    | true =>
      cases rd with
      | false => simp [load_and_play] at h₁
      | true =>
        simp [load_and_play] at h₁
        subst h₁
        cases rt <;> simp
  · cases mo with
    | false => simp [load_and_play_symphonia] at h₂
    | true =>
      cases mp with
      | false => simp [load_and_play_symphonia] at h₂
      | true =>
        cases mk with
        | false => simp [load_and_play_symphonia] at h₂
        | true =>
          simp [load_and_play_symphonia, hst] at h₂
          subst h₂
          by_cases hc : 0 < st.ch ∧ 0 < st.sr <;> simp [hc]

/-- Witness for C3 at concrete inputs: a fast source with unknown duration,
and a fallback source whose one decoded packet reports rate 0 and 0 channels
(undeterminable), both succeeding with `duration_ms = none`. -/
theorem duration_none_iff_undeterminable_witness :
    ((⟨"a", none⟩ : TrackInfo).duration_ms = none
        ↔ (⟨true, true, none⟩ : RodioSource).totalDurationNanos = none)
    ∧ ((⟨"a", none⟩ : TrackInfo).duration_ms = none
        ↔ ¬(0 < (0 : Nat) ∧ 0 < (0 : Nat))) :=
  duration_none_iff_undeterminable "a" ⟨true, true, none⟩
    ⟨true, true, some ⟨0, none, none⟩, true, [.packet 0 (.ok 0 0 []), .eof]⟩
    ⟨0, none, none⟩ ⟨[], 0, 0, 0⟩ ⟨"a", none⟩ ⟨"a", none⟩ rfl rfl rfl rfl

/-- C4: if a play operation fails with an error — `load_and_play` on the
fast path or `load_and_play_symphonia` on the fallback path — then no sink
op at all was issued (no stop, no append, no play): the previous track's
playback continues untouched. -/
theorem play_failure_no_sink_ops (path : String) (rsrc : RodioSource)
    (msrc : MediaSource) (e₁ e₂ : PlayerErr)
    (h₁ : (load_and_play path rsrc).1 = .error e₁)
    (h₂ : (load_and_play_symphonia path msrc).1 = .error e₂) :
    (load_and_play path rsrc).2 = [] ∧ (load_and_play_symphonia path msrc).2 = [] := by
  obtain ⟨ro, rd, rt⟩ := rsrc
  obtain ⟨mo, mp, mdt, mk, mpkts⟩ := msrc
  constructor
  · cases ro with
    | false => simp [load_and_play]
    | true =>
      cases rd with
      | false => simp [load_and_play]
      | true => simp [load_and_play] at h₁
  · cases mo with
    | false => simp [load_and_play_symphonia]
    | true =>
      cases mp with
      | false => simp [load_and_play_symphonia]
      | true =>
        rcases mdt with _ | t
        · simp [load_and_play_symphonia]
        · cases mk with
          | false => simp [load_and_play_symphonia]
          | true =>
            cases hl : packetLoop t.id mpkts (initState t.codec_params) with
            | error e => simp [load_and_play_symphonia, hl]
            | ok st => simp [load_and_play_symphonia, hl] at h₂

/-- Witness for C4 at concrete inputs: both paths fail at `File::open`;
neither issued a sink op. -/
theorem play_failure_no_sink_ops_witness :
    (load_and_play "a" ⟨false, true, none⟩).2 = []
    ∧ (load_and_play_symphonia "a" ⟨false, true, none, true, []⟩).2 = [] :=
  play_failure_no_sink_ops "a" ⟨false, true, none⟩ ⟨false, true, none, true, []⟩
    .openFailed .openFailed rfl rfl

/-- C6: on a successful fallback decode whose loop ends with last-observed
sample rate and channel count (`st.sr`, `st.ch`) and accumulated interleaved
sample count `st.pcm.length`, and whose `u64` products do not wrap,
`duration_ms` equals exactly `total_samples * 1000 / (sample_rate *
channel_count)` when both are positive, and is undefined (`none`) otherwise.
(The fallback path never takes a duration from metadata.) -/
theorem fallback_duration_formula (path : String) (msrc : MediaSource)
    (t : Track) (st : LoopState)
    (ho : msrc.openOk = true) (hp : msrc.probeOk = true)
    (hm : msrc.makeDecoderOk = true)
    (ht : msrc.defaultTrack = some t)
    (hst : packetLoop t.id msrc.packets (initState t.codec_params) = .ok st)
    (hb₁ : st.pcm.length * 1000 < 2 ^ 64) (hb₂ : st.sr * st.ch < 2 ^ 64) :
    (load_and_play_symphonia path msrc).1 =
      .ok ⟨path, if 0 < st.ch ∧ 0 < st.sr then
          some (st.pcm.length * 1000 / (st.sr * st.ch)) else none⟩ := by
  have e₁ : st.pcm.length * 1000 % 18446744073709551616 = st.pcm.length * 1000 :=
    Nat.mod_eq_of_lt hb₁
  have e₂ : st.sr * st.ch % 18446744073709551616 = st.sr * st.ch :=
    Nat.mod_eq_of_lt hb₂
  simp [load_and_play_symphonia, ho, hp, hm, ht, hst, e₁, e₂]

/-- Witness for C6 at a concrete input: one decoded packet of 4 interleaved
samples at 1000 Hz stereo gives `4 * 1000 / (1000 * 2) = 2` ms. -/
theorem fallback_duration_formula_witness :
    (load_and_play_symphonia "a" ⟨true, true, some ⟨7, some 8000, some 2⟩, true,
        [.packet 7 (.ok 1000 2 [1, 2, 3, 4]), .eof]⟩).1 =
      .ok ⟨"a", if 0 < (2 : Nat) ∧ 0 < (1000 : Nat) then
          some ([(1 : Int), 2, 3, 4].length * 1000 / (1000 * 2)) else none⟩ :=
  fallback_duration_formula "a"
    ⟨true, true, some ⟨7, some 8000, some 2⟩, true,
      [.packet 7 (.ok 1000 2 [1, 2, 3, 4]), .eof]⟩
    ⟨7, some 8000, some 2⟩ ⟨[1, 2, 3, 4], 1000, 2, 0⟩
    rfl rfl rfl rfl rfl (by decide) (by decide)

/-- C5: when the fast decode path fails, the `Play` handlers never surface
that failure as the final result: the desktop `player_loop` and the CLI's
player both return exactly the fallback path's result, so the only
user-visible error is a fallback failure. -/
theorem fast_failure_not_surfaced (path : String) (rsrc : RodioSource)
    (msrc : MediaSource) (e : PlayerErr)
    (h : (load_and_play path rsrc).1 = .error e) :
    (player_loop_play path rsrc msrc).1
        = mapErrString (load_and_play_symphonia path msrc).1
    ∧ (cli_load_and_play path rsrc msrc).1
        = (load_and_play_symphonia path msrc).1 := by
  obtain ⟨ro, rd, rt⟩ := rsrc
  cases ro with
  | false =>
    constructor <;> simp [player_loop_play, cli_load_and_play, load_and_play]
  | true =>
    cases rd with
    | false =>
      constructor <;> simp [player_loop_play, cli_load_and_play, load_and_play]
    | true => simp [load_and_play] at h

/-- Witness for C5 at a concrete input: the fast path fails to open, the
fallback has no audio track; both handlers surface exactly the fallback's
result. -/
theorem fast_failure_not_surfaced_witness :
    (player_loop_play "a" ⟨false, true, none⟩ ⟨true, true, none, true, []⟩).1
        = mapErrString (load_and_play_symphonia "a" ⟨true, true, none, true, []⟩).1
    ∧ (cli_load_and_play "a" ⟨false, true, none⟩ ⟨true, true, none, true, []⟩).1
        = (load_and_play_symphonia "a" ⟨true, true, none, true, []⟩).1 :=
  fast_failure_not_surfaced "a" ⟨false, true, none⟩ ⟨true, true, none, true, []⟩
    .openFailed rfl

/-- C8: every operation that starts new audio — a successful fast-path play,
a successful fallback play, and an in-range seek — issues exactly the
uninterrupted sink sequence `stop`, one `append`, `play` (all under the one
`sink.lock()`), so the old content is discarded before the new begins. -/
theorem start_ops_stop_append_play (path : String) (rsrc rsrc₂ : RodioSource)
    (msrc : MediaSource) (to_ms : Nat) (info₁ info₂ : TrackInfo)
    (h₁ : (load_and_play path rsrc).1 = .ok info₁)
    (h₂ : (load_and_play_symphonia path msrc).1 = .ok info₂)
    (h₃ : rsrc₂.openOk = true) (h₄ : rsrc₂.decodeOk = true)
    (h₅ : ∀ total, rsrc₂.totalDurationNanos = some total
      → to_ms * 1000000 < total) :
    (∃ a : SinkOp, a.isAppend = true
      ∧ (load_and_play path rsrc).2 = [.stop, a, .play])
    ∧ (∃ a : SinkOp, a.isAppend = true
      ∧ (load_and_play_symphonia path msrc).2 = [.stop, a, .play])
    ∧ (∃ a : SinkOp, a.isAppend = true
      ∧ (seek_approx rsrc₂ to_ms).2 = [.stop, a, .play]) := by
  refine ⟨?_, ?_, ?_⟩
  · obtain ⟨ro, rd, rt⟩ := rsrc
    cases ro with
    | false => simp [load_and_play] at h₁
    | true =>
      cases rd with
      | false => simp [load_and_play] at h₁
      | true => exact ⟨.appendDecoder, rfl, by simp [load_and_play]⟩
  · obtain ⟨mo, mp, mdt, mk, mpkts⟩ := msrc
    cases mo with
    | false => simp [load_and_play_symphonia] at h₂
    | true =>
      cases mp with
      | false => simp [load_and_play_symphonia] at h₂
      | true =>
        rcases mdt with _ | t
        · simp [load_and_play_symphonia] at h₂
        · cases mk with
          | false => simp [load_and_play_symphonia] at h₂
          | true =>
            cases hl : packetLoop t.id mpkts (initState t.codec_params) with
            | error e => simp [load_and_play_symphonia, hl] at h₂
            | ok st =>
              exact ⟨.appendSamples (st.ch % 65536) st.sr st.pcm, rfl,
                by simp [load_and_play_symphonia, hl]⟩
  · rcases hrt : rsrc₂.totalDurationNanos with _ | total
    · exact ⟨.appendSkipped to_ms, rfl, by simp [seek_approx, h₃, h₄, hrt]⟩
    · have hlt := h₅ total hrt
      exact ⟨.appendSkipped to_ms, rfl,
        by simp [seek_approx, h₃, h₄, hrt, Nat.not_le.mpr hlt]⟩

/-- Witness for C8 at concrete inputs: a fast play, a fallback play of an
empty stream, and a seek to 5 ms on a source with unknown duration. -/
theorem start_ops_stop_append_play_witness :
    (∃ a : SinkOp, a.isAppend = true
      ∧ (load_and_play "a" ⟨true, true, none⟩).2 = [.stop, a, .play])
    ∧ (∃ a : SinkOp, a.isAppend = true
      ∧ (load_and_play_symphonia "a"
          ⟨true, true, some ⟨0, none, none⟩, true, [.eof]⟩).2 = [.stop, a, .play])
    ∧ (∃ a : SinkOp, a.isAppend = true
      ∧ (seek_approx ⟨true, true, none⟩ 5).2 = [.stop, a, .play]) :=
  start_ops_stop_append_play "a" ⟨true, true, none⟩ ⟨true, true, none⟩
    ⟨true, true, some ⟨0, none, none⟩, true, [.eof]⟩ 5 ⟨"a", none⟩ ⟨"a", some 0⟩
    rfl rfl rfl rfl (fun _ h => nomatch h)

/-- Inserting one packet of a foreign track anywhere into the packet stream
leaves the fallback loop's result unchanged (helper for the claim about track
filtering). -/
theorem packetLoop_foreign_insert (track_id tid : Nat) (oc : DecodeOutcome)
    (h : tid ≠ track_id) (pre : List PacketEvent) :
    ∀ (rest : List PacketEvent) (st : LoopState),
      packetLoop track_id (pre ++ .packet tid oc :: rest) st
        = packetLoop track_id (pre ++ rest) st := by
  induction pre with
  | nil => intro rest st; simp [packetLoop, h]
  | cons e pre ih =>
    intro rest st
    cases e with
    | packet tid2 oc2 =>
      by_cases h2 : tid2 = track_id
      · subst h2
        cases oc2 with
        | ok r c samples => simp [packetLoop, ih]
        | decodeError => simp [packetLoop, ih]
        | fatal => simp [packetLoop]
      · simp [packetLoop, h2, ih]
    | resetRequired => simp [packetLoop, ih]
    | eof => simp [packetLoop]
    | otherError => simp [packetLoop]

/-- C10: the fallback path selects exactly the container's default track
before the loop — with no default track it fails with "no audio track"
before decoding anything — and every packet whose track id differs from the
selected track's id is skipped without being decoded: inserting such a
packet (of any decode outcome, even a fatal one) anywhere in the stream
changes nothing about the result — no samples, no sample-rate or
channel-count updates, no error. -/
theorem fallback_foreign_track_ignored (path : String) (msrc msrc₀ : MediaSource)
    (t : Track) (pre rest : List PacketEvent) (tid : Nat) (oc : DecodeOutcome)
    (ht : msrc.defaultTrack = some t) (hne : tid ≠ t.id)
    (h₀t : msrc₀.defaultTrack = none)
    (h₀o : msrc₀.openOk = true) (h₀p : msrc₀.probeOk = true) :
    load_and_play_symphonia path
        ⟨msrc.openOk, msrc.probeOk, msrc.defaultTrack, msrc.makeDecoderOk,
          pre ++ .packet tid oc :: rest⟩
      = load_and_play_symphonia path
        ⟨msrc.openOk, msrc.probeOk, msrc.defaultTrack, msrc.makeDecoderOk,
          pre ++ rest⟩
    ∧ (load_and_play_symphonia path msrc₀).1 = .error .noAudioTrack := by
  obtain ⟨mo, mp, mdt, mk, mpkts⟩ := msrc
  simp only at ht
  subst ht
  constructor
  · cases mo with
    | false => simp [load_and_play_symphonia]
    | true =>
      cases mp with
      | false => simp [load_and_play_symphonia]
      | true =>
        cases mk with
        | false => simp [load_and_play_symphonia]
        | true =>
          simp only [load_and_play_symphonia]
          rw [packetLoop_foreign_insert t.id tid oc hne pre rest
            (initState t.codec_params)]
  · simp [load_and_play_symphonia, h₀o, h₀p, h₀t]

/-- Witness for C10 at a concrete input: a fatal-decode packet of track 6 is
inserted into the stream of default track 5 and changes nothing; a source
with no default track fails with `noAudioTrack`. -/
theorem fallback_foreign_track_ignored_witness :
    load_and_play_symphonia "a"
        ⟨true, true, some ⟨5, none, none⟩, true, [] ++ .packet 6 .fatal :: [.eof]⟩
      = load_and_play_symphonia "a"
        ⟨true, true, some ⟨5, none, none⟩, true, [] ++ [.eof]⟩
    ∧ (load_and_play_symphonia "a" ⟨true, true, none, true, []⟩).1
        = .error .noAudioTrack :=
  fallback_foreign_track_ignored "a" ⟨true, true, some ⟨5, none, none⟩, true, []⟩
    ⟨true, true, none, true, []⟩ ⟨5, none, none⟩ [] [.eof] 6 .fatal
    rfl (by decide) rfl rfl rfl
